import Mathlib

/-!
# Verification of the reactive property engine of `petit-kit/scope`

Shallow embedding of `Component.ts` (the `Component` base class: typed
property store, attribute reflection, render scheduler, lifecycle and
plugin teardown) together with proofs checking the natural-language
specification against it.

Conventions of the embedding:
* JS runtime values are modelled by `Scope.Value`; numbers are `Int`
  plus an explicit `nan` (the claims only exercise integral numbers).
  Structured values (arrays, objects, functions) are opaque tagged
  values: the component never inspects their contents — they come from
  `JSON.parse` or the caller and pass through unchanged.
* Host-runtime builtins that the component merely calls
  (`JSON.parse`, string-to-number coercion of unary `+`, the
  stringification of structured values, and the user-supplied `render`
  method) are fields of a `Scope.Host` record: they are external
  collaborators, not code of this repository.
* Side effects observable from outside the store (the `onUpdate` hook,
  `console.warn`, attribute writes, external-reference `set` pushes,
  render invocations, lifecycle hooks) are recorded in an event log.
* The two object-reference fields `this._props` and `this.props` are
  modelled as indices into a small heap, so that the aliasing
  established by `this.props = this._props` is a provable invariant
  rather than an assumption.
-/

namespace Scope

/-- A JavaScript runtime value, as far as the component manipulates one.
Numbers are modelled as integers plus an explicit NaN; arrays, objects
and function values are opaque tags (their contents are never inspected
by the component). -/
inductive Value where
  | str (s : String)
  | num (n : Int)
  | nan
  | bool (b : Bool)
  | null
  | undefined
  | arr (tag : Nat)
  | obj (tag : Nat)
  | func (tag : Nat)
  deriving DecidableEq, Repr

/-- JS truthiness, used by the constructor's `val ? castValue(val, type) : d`. -/
def jsTruthy : Value → Bool
  | .str s => s ≠ ""
  | .num n => n ≠ 0
  | .nan => false
  | .bool b => b
  | .null => false
  | .undefined => false
  | .arr _ => true
  | .obj _ => true
  | .func _ => true

/-- Host-runtime builtins and the user-supplied render method: external
collaborators of the component, abstracted as a record. -/
structure Host where
  /-- `JSON.parse`: throws (`.error`) on malformed input. -/
  jparse : String → Except Unit Value
  /-- String-to-number coercion of JS unary `+` on a string. -/
  toNum : String → Value
  /-- JS `String(x)` of an opaque structured value (array contents
  join, function source text). -/
  strOfTag : Nat → String
  /-- The user-supplied `render(props, children)` override; returning
  no (or an empty) string is a valid no-op. -/
  render : List (String × Value) → Option String

/-- JS `String(x)` as used by `setAttribute(key, value)`. -/
def toAttrString (host : Host) : Value → String
  | .str s => s
  | .num n => toString n
  | .nan => "NaN"
  | .bool b => if b then "true" else "false"
  | .null => "null"
  | .undefined => "undefined"
  | .arr t => host.strOfTag t
  | .obj _ => "[object Object]"
  | .func t => host.strOfTag t

/-- JS unary `+v` on an arbitrary value (the `t === "number"` branch of
`castValue`); non-numeric values coerce through their string form. -/
def jsToNum (host : Host) : Value → Value
  | .str s => host.toNum s
  | .num n => .num n
  | .nan => .nan
  | .bool b => .num (if b then 1 else 0)
  | .null => .num 0
  | .undefined => .nan
  | .arr t => host.toNum (host.strOfTag t)
  | .obj _ => .nan
  | .func _ => .nan

/-- `castValue(v, t)` from `Component.ts`: casts a (usually string)
value to the declared type. `.error` models a `JSON.parse` throw. -/
def castValue (host : Host) (v : Value) (t : String) : Except Unit Value :=
  if t = "number" then .ok (jsToNum host v)
  else if t = "array" then
    match v with
    | .str s => host.jparse s
    | w => .ok w
  else if t = "object" then
    match v with
    | .str s => if s = "undefined" then .ok .undefined else host.jparse s
    | w => .ok w
  else if t = "boolean" then .ok (.bool (v == .str "true" || v == .str ""))
  else .ok v

/-- `inferType(val)` from `Component.ts`. -/
def inferType : Value → String
  | .arr _ => "array"
  | .null => "null"
  | .obj _ => "object"
  | .str _ => "string"
  | .num _ => "number"
  | .nan => "number"
  | .bool _ => "boolean"
  | .undefined => "undefined"
  | .func _ => "function"

/-- A normalized property definition, the result of `castProp`:
semantic type, default value, `reflect` and `noRender` flags, and
whether the property is bound to an external reference. -/
structure PropDef where
  type : String
  dflt : Value
  reflect : Bool
  noRender : Bool
  hasRef : Bool
  deriving DecidableEq, Repr

/-- A raw user-supplied property definition, before `castProp`
normalization: an external reference (recognized by a callable `get`,
with `initial` the value `get()` returns at construction), an explicit
schema (a `type` field is present), or a bare default value. -/
inductive RawProp where
  | refProp (initial : Value)
  | schema (type : String) (dflt : Value) (reflect : Bool) (noRender : Bool)
  | bare (v : Value)
  deriving DecidableEq, Repr

/-- `castProp(prop)` from `Component.ts`: three-way normalization.
An explicit schema is used as-is (its `ref` field being absent, hence
falsy); a reference wrap and a bare default leave `reflect`/`noRender`
absent, hence falsy. -/
def castProp : RawProp → PropDef
  | .refProp v => ⟨inferType v, v, false, false, true⟩
  | .schema t d r nr => ⟨t, d, r, nr, false⟩
  | .bare v => ⟨inferType v, v, false, false, false⟩

/-- What a plugin factory returned: which optional lifecycle hooks the
plugin object carries (`onPreMount?`, `onMount?`, `onUnmount?`). -/
structure PluginSpec where
  hasPreMount : Bool
  hasMount : Bool
  hasUnmount : Bool
  deriving DecidableEq, Repr

/-- An externally observable effect of the component, recorded in an
event log in execution order. -/
inductive Event where
  /-- `this.onUpdate(changes, allProps)`. -/
  | update (changes : List (String × Value)) (props : List (String × Value))
  /-- `this.setAttribute(key, serialized)` (also an out-of-band host
  attribute write). -/
  | setAttr (key : String) (va : String)
  /-- `ref.set(value)`: a push to a property's external reference. -/
  | refSet (key : String) (v : Value)
  /-- `console.warn` for an unknown property key. -/
  | warn (key : String)
  /-- A `TypeError` from reading a field of a missing definition
  (unreachable when definitions and store share their keys). -/
  | crash
  /-- `this.render(props, children)` was invoked, observing `props`. -/
  | renderCall (props : List (String × Value))
  /-- `this.template.innerHTML = content`. -/
  | innerHTML (content : String)
  | onPreMountE
  | onMountE
  | onUnmountE
  /-- `this._styles?.remove()` actually removed the owned style node. -/
  | removeStylesE
  /-- `ref.unsub?.()` for the property `key`. -/
  | unsub (key : String)
  | pluginPreMount (i : Nat)
  | pluginMount (i : Nat)
  | pluginUnmount (i : Nat)
  deriving DecidableEq, Repr

/-- The state of one `Component` instance. `heap` maps object ids to
property maps; `privId` is the object the field `this._props` holds,
`pubId` the one the field `this.props` holds. -/
structure CompState where
  defs : List (String × PropDef)
  heap : Nat → List (String × Value)
  privId : Nat
  pubId : Nat
  attrs : List (String × String)
  observedAttrs : List String
  hasStyles : Bool
  batchRender : Bool
  renderScheduled : Bool
  pendingFlush : Bool
  mounted : Bool
  thrown : Bool
  plugins : List PluginSpec
  templateHTML : String
  log : List Event

/-- Associative-list update in place (JS object assignment: existing
key keeps its position, a new key is appended). -/
def aupd {β : Type} (k : String) (v : β) : List (String × β) → List (String × β)
  | [] => [(k, v)]
  | (k', v') :: rest => if k' = k then (k, v) :: rest else (k', v') :: aupd k v rest

/-- The property map `this._props` refers to. -/
def readMap (s : CompState) : List (String × Value) :=
  s.heap s.privId

/-- Overwrite the object `this._props` refers to. -/
def writeMap (s : CompState) (m : List (String × Value)) : CompState :=
  { s with heap := fun j => if j = s.privId then m else s.heap j }

/-- Append one event to the log. -/
def pushLog (s : CompState) (e : Event) : CompState :=
  { s with log := s.log ++ [e] }

/-- `get(key)` from `Component.ts`: `return this._props[key]` — a pure
read, no warning, no other effect. -/
def jsGet (s : CompState) (key : String) : Value :=
  ((readMap s).lookup key).getD .undefined

/-- `propsExists(key)`. -/
def propsExists (s : CompState) (key : String) : Bool :=
  ((readMap s).lookup key).isSome

/-- The argument of `set`: a literal value, or a functional updater
(`typeof value === "function"`); `tag` identifies the function object
itself if it ends up stored. -/
inductive SetArg where
  | lit (v : Value)
  | updater (f : Value → Value) (tag : Nat)

/-- `typeof value === "function" && !noExecution ? value(prev) : value`. -/
def applyArg : SetArg → Value → Bool → Value
  | .lit v, _, _ => v
  | .updater f _, prev, noExecution => if noExecution then .func 0 else f prev

/-- `_render()`: invoke the user render function with the current props;
a truthy (non-empty) result replaces the template's innerHTML. -/
def renderNow (host : Host) (s : CompState) : CompState :=
  let m := readMap s
  let s := pushLog s (.renderCall m)
  match host.render m with
  | some content =>
      if content = "" then s
      else { pushLog s (.innerHTML content) with templateHTML := content }
  | none => s

/-- `_scheduleRender()`: render inline when batching is off; otherwise
coalesce onto a single pending microtask. -/
def scheduleRender (host : Host) (s : CompState) : CompState :=
  if ¬s.batchRender then renderNow host s
  else if s.renderScheduled then s
  else { s with renderScheduled := true, pendingFlush := true }

/-- Run the pending microtask queued by `_scheduleRender`, if any:
clear the pending flag and render. -/
def flushMicro (host : Host) (s : CompState) : CompState :=
  if s.pendingFlush then
    renderNow host { s with pendingFlush := false, renderScheduled := false }
  else s

/-- `this.onUpdate({ [key]: this._props[key] }, this._props)`: the
current (re-read) value of the written key together with the full
current property set. -/
def setNotify (s : CompState) (key : String) : CompState :=
  pushLog s (.update [(key, jsGet s key)] (readMap s))

/-- `if (this._propsDefinitions[key].ref && !_fromRef)
this._propsDefinitions[key].ref.set(this._props[key])`: push the
current value to the external reference unless the write originated
from it. -/
def setRefPush (s : CompState) (key : String) (d : PropDef) (fromRef : Bool) :
    CompState :=
  if d.hasRef = true ∧ fromRef = false then pushLog s (.refSet key (jsGet s key))
  else s

/-- `!this._propsDefinitions[key].noRender && this.mounted &&
this._scheduleRender()`. -/
def setSchedule (host : Host) (s : CompState) (d : PropDef) : CompState :=
  if d.noRender = false ∧ s.mounted = true then scheduleRender host s else s

/-- The statements of `set` after the reflection step: update
notification, external-reference push, render scheduling. -/
def setTail (host : Host) (s : CompState) (key : String) (d : PropDef)
    (fromRef : Bool) : CompState :=
  setSchedule host (setRefPush (setNotify s key) key d fromRef) d

/-- The body of `set(key, value, noReflect, _fromRef, noExecution)`,
with the attribute-reflection action abstracted as `reflectTo` (the
host's `setAttribute`, which synchronously re-enters the component
through `attributeChangedCallback`). Mirrors the source line by line:
unknown-key guard and warn; assignment (with functional-update
application); guarded reflection; the statements after reflection
(`setTail`). A `reflectTo` that threw (the `thrown` flag) aborts the
rest of the body, as the exception would. -/
def jsSetCore (host : Host) (s : CompState) (key : String) (arg : SetArg)
    (noReflect fromRef noExecution : Bool)
    (reflectTo : CompState → String → String → CompState) : CompState :=
  let m := readMap s
  match m.lookup key with
  | none => pushLog s (.warn key)
  | some prev =>
    match s.defs.lookup key with
    | none => pushLog s .crash
    | some d =>
      let newVal := applyArg arg prev noExecution
      let s := writeMap s (aupd key newVal m)
      let s :=
        if prev ≠ newVal ∧ d.reflect = true ∧ noReflect = false then
          reflectTo s key (toAttrString host newVal)
        else s
      if s.thrown then s
      else setTail host s key d fromRef

/-- `set` as called with `noReflect = true` (in particular the call the
attribute-changed path makes): the reflection guard is already false,
so the reflect action is never taken. -/
def jsSetNR (host : Host) (s : CompState) (key : String) (arg : SetArg)
    (fromRef noExecution : Bool) : CompState :=
  jsSetCore host s key arg true fromRef noExecution (fun st _ _ => st)

/-- `attributeChangedCallback(name, _, newValue)`: ignore attributes
with no matching definition; coerce; skip properties bound to an
external reference; otherwise a non-reflecting, non-reference `set`.
A `castValue` throw escapes (`thrown`). -/
def attributeChangedCallback (host : Host) (s : CompState)
    (name newValue : String) : CompState :=
  match s.defs.lookup name with
  | none => s
  | some d =>
    match castValue host (.str newValue) d.type with
    | .error _ => { s with thrown := true }
    | .ok fv =>
      if d.hasRef then s
      else jsSetNR host s name (.lit fv) false false

/-- The host records an attribute's new serialized value. -/
def attrLogged (s : CompState) (key va : String) : CompState :=
  { s with attrs := aupd key va s.attrs, log := s.log ++ [.setAttr key va] }

/-- A host attribute write (`setAttribute`, from reflection or
out-of-band): record the new serialized value, then — if the attribute
is observed — synchronously fire `attributeChangedCallback`. -/
def hostSetAttribute (host : Host) (s : CompState) (key va : String) : CompState :=
  let s := attrLogged s key va
  if key ∈ s.observedAttrs then attributeChangedCallback host s key va else s

/-- `set(key, value, noReflect, _fromRef, noExecution)` from
`Component.ts`, with reflection going through the host's
`setAttribute`. -/
def jsSet (host : Host) (s : CompState) (key : String) (arg : SetArg)
    (noReflect fromRef noExecution : Bool) : CompState :=
  jsSetCore host s key arg noReflect fromRef noExecution (hostSetAttribute host)

/-- `setMultiple(updates, noReflect)`: one `set` per entry in iteration
order; an escaping exception aborts the loop. -/
def setMultiple (host : Host) (s : CompState)
    (updates : List (String × SetArg)) (noReflect : Bool) : CompState :=
  updates.foldl
    (fun st kv =>
      if st.thrown then st else jsSet host st kv.1 kv.2 noReflect false false) s

/-- The events of `plugins.forEach((plugin) => plugin.onPreMount?.())`,
starting at plugin index `i`. -/
def pluginPreMountEvents : Nat → List PluginSpec → List Event
  | _, [] => []
  | i, p :: ps =>
    (if p.hasPreMount then [Event.pluginPreMount i] else [])
      ++ pluginPreMountEvents (i + 1) ps

/-- The events of `plugins.forEach((plugin) => plugin.onMount?.())`. -/
def pluginMountEvents : Nat → List PluginSpec → List Event
  | _, [] => []
  | i, p :: ps =>
    (if p.hasMount then [Event.pluginMount i] else [])
      ++ pluginMountEvents (i + 1) ps

/-- The events of `plugins.forEach((plugin) => plugin.onUnmount?.())`. -/
def pluginUnmountEvents : Nat → List PluginSpec → List Event
  | _, [] => []
  | i, p :: ps =>
    (if p.hasUnmount then [Event.pluginUnmount i] else [])
      ++ pluginUnmountEvents (i + 1) ps

/-- The events of `Object.values(this._propsDefinitions).forEach((v) =>
v && v.ref && v.ref.unsub?.())`. -/
def unsubEvents : List (String × PropDef) → List Event
  | [] => []
  | (k, d) :: rest =>
    (if d.hasRef then [Event.unsub k] else []) ++ unsubEvents rest

/-- `connectedCallback()`: `onPreMount`, plugin pre-mount hooks, the
full-props update notification, plugin mount hooks, first render, mark
mounted, `onMount`. -/
def connectedCallback (host : Host) (s : CompState) : CompState :=
  let s := pushLog s .onPreMountE
  let s := { s with log := s.log ++ pluginPreMountEvents 0 s.plugins }
  let s := pushLog s (.update (readMap s) (readMap s))
  let s := { s with log := s.log ++ pluginMountEvents 0 s.plugins }
  let s := renderNow host s
  let s := { s with mounted := true }
  pushLog s .onMountE

/-- `disconnectedCallback()`: `onUnmount`, remove the owned style node
(when one exists), unsubscribe every property's external reference,
then every plugin's unmount hook in declared order. Nothing else — in
particular neither `mounted` nor the pending-render flags change. -/
def disconnectedCallback (s : CompState) : CompState :=
  let s := pushLog s .onUnmountE
  let s := if s.hasStyles then pushLog s .removeStylesE else s
  let s := { s with log := s.log ++ unsubEvents s.defs }
  { s with log := s.log ++ pluginUnmountEvents 0 s.plugins }

/-- `update()`: `this.mounted && this._scheduleRender()`. -/
def forceUpdate (host : Host) (s : CompState) : CompState :=
  if s.mounted then scheduleRender host s else s

/-- A direct assignment `this.props[key] = v` by outside code on the
public `props` field: a plain JS object write — memory only, no hook,
no reflection, no scheduling. -/
def directAssign (s : CompState) (key : String) (v : Value) : CompState :=
  { s with heap := fun j => if j = s.pubId then aupd key v (s.heap s.pubId) else s.heap j }

/-- The property map read through the public `props` field. -/
def publicProps (s : CompState) : List (String × Value) :=
  s.heap s.pubId

/-- The initial value the constructor computes for one key:
`const val = ref?.get?.() ?? this.getAttribute(key)` followed by
`acc[key] = val ? castValue(val, type) : d`. -/
def initValue (host : Host) (attrs : List (String × String)) (k : String)
    (raw : RawProp) : Except Unit Value :=
  let pd := castProp raw
  let valOpt : Option Value :=
    match raw with
    | .refProp v =>
      if v = .null ∨ v = .undefined then (attrs.lookup k).map .str else some v
    | _ => (attrs.lookup k).map .str
  match valOpt with
  | some v => if jsTruthy v then castValue host v pd.type else .ok pd.dflt
  | none => .ok pd.dflt

/-- The constructor's `reduce` over the declared property keys:
normalized definitions, initial property values, and whether a
`castValue` throw aborted construction. -/
def initProps (host : Host) (attrs : List (String × String)) :
    List (String × RawProp) →
      List (String × PropDef) × List (String × Value) × Bool
  | [] => ([], [], false)
  | (k, raw) :: rest =>
    let pd := castProp raw
    match initValue host attrs k raw with
    | .error _ => ([(k, pd)], [], true)
    | .ok v =>
      let (ds, ps, th) := initProps host attrs rest
      ((k, pd) :: ds, (k, v) :: ps, th)

/-- The `Component` constructor: normalize definitions, compute initial
property values (external reference first, else coerced attribute, else
default), allocate the single property-map object and point both
`this._props` and `this.props` at it. A `castValue` throw during the
`reduce` leaves `this._props` at its empty field initializer. -/
def construct (host : Host) (raws : List (String × RawProp))
    (attrs : List (String × String)) (observed : List String)
    (styles : String) (plugins : List PluginSpec) (batch : Bool) : CompState :=
  let (ds, ps, th) := initProps host attrs raws
  { defs := ds
    heap := fun j => if j = 0 then (if th then [] else ps) else []
    privId := 0
    pubId := 0
    attrs := attrs
    observedAttrs := observed
    hasStyles := styles ≠ ""
    batchRender := batch
    renderScheduled := false
    pendingFlush := false
    mounted := false
    thrown := th
    plugins := plugins
    templateHTML := ""
    log := [] }

/-- One event-loop turn acting on the component from outside. -/
inductive Op where
  | setOp (key : String) (arg : SetArg) (noReflect fromRef noExecution : Bool)
  | setMultipleOp (updates : List (String × SetArg)) (noReflect : Bool)
  | getOp (key : String)
  | attrWrite (key va : String)
  | flushOp
  | connectOp
  | disconnectOp
  | updateOp
  /-- The subscription callback installed at construction:
  `ref.subscribe((v) => this.set(key, v, false, true))`. -/
  | refPushOp (key : String) (v : Value)
  /-- `element.props[key] = v` by outside code. -/
  | directAssignOp (key : String) (v : Value)

/-- Run one turn. Each turn starts with a clean exception flag (an
exception escaping an earlier turn does not poison later ones); `get`
reads without touching the state. -/
def step (host : Host) (s : CompState) : Op → CompState
  | .setOp k a nr fr ne => jsSet host { s with thrown := false } k a nr fr ne
  | .setMultipleOp us nr => setMultiple host { s with thrown := false } us nr
  | .getOp _ => s
  | .attrWrite k va => hostSetAttribute host { s with thrown := false } k va
  | .flushOp => flushMicro host { s with thrown := false }
  | .connectOp => connectedCallback host { s with thrown := false }
  | .disconnectOp => disconnectedCallback { s with thrown := false }
  | .updateOp => forceUpdate host { s with thrown := false }
  | .refPushOp k v => jsSet host { s with thrown := false } k (.lit v) false true false
  | .directAssignOp k v => directAssign { s with thrown := false } k v

/-- Number of `onUpdate` invocations recorded in a log. -/
def countUpdates : List Event → Nat
  | [] => 0
  | e :: l => (match e with | .update _ _ => 1 | _ => 0) + countUpdates l

/-- Number of attribute writes recorded in a log. -/
def countAttrWrites : List Event → Nat
  | [] => 0
  | e :: l => (match e with | .setAttr _ _ => 1 | _ => 0) + countAttrWrites l

/-- Number of external-reference pushes recorded in a log. -/
def countRefSets : List Event → Nat
  | [] => 0
  | e :: l => (match e with | .refSet _ _ => 1 | _ => 0) + countRefSets l

/-- Number of warnings recorded in a log. -/
def countWarns : List Event → Nat
  | [] => 0
  | e :: l => (match e with | .warn _ => 1 | _ => 0) + countWarns l

/-- Number of render invocations recorded in a log. -/
def countRenders : List Event → Nat
  | [] => 0
  | e :: l => (match e with | .renderCall _ => 1 | _ => 0) + countRenders l

/-- The property sets successive render invocations observed. -/
def renderObs : List Event → List (List (String × Value))
  | [] => []
  | .renderCall m :: l => m :: renderObs l
  | _ :: l => renderObs l

/-- The reference definition of `coerce` as worded by the specification
(§4.1): number is a numeric parse, array and object are structured
parses (with the literal string "undefined" for object yielding the
absence of a value), boolean is true iff the literal "true" or the
empty string, anything else is returned unchanged. Stated over the same
abstract host builtins as the code. -/
def coerceSpec (host : Host) (s t : String) : Except Unit Value :=
  if t = "number" then .ok (host.toNum s)
  else if t = "array" then host.jparse s
  else if t = "object" then
    if s = "undefined" then .ok .undefined else host.jparse s
  else if t = "boolean" then .ok (.bool (s == "true" || s == ""))
  else .ok (.str s)

/-! ## Concrete host and states for witnesses and counterexamples -/

/-- Decimal digit value of a character, for the demo host's numeric
parser. -/
def digitVal (c : Char) : Option Nat :=
  if c = '0' then some 0 else if c = '1' then some 1
  else if c = '2' then some 2 else if c = '3' then some 3
  else if c = '4' then some 4 else if c = '5' then some 5
  else if c = '6' then some 6 else if c = '7' then some 7
  else if c = '8' then some 8 else if c = '9' then some 9 else none

/-- Accumulating decimal parse of a digit list. -/
def parseDigits : Nat → List Char → Option Nat
  | acc, [] => some acc
  | acc, c :: rest =>
    match digitVal c with
    | some d => parseDigits (acc * 10 + d) rest
    | none => none

/-- The demo host's string-to-number parse: optional minus sign and
decimal digits; the empty string parses to 0 (as JS `+""` does);
anything else is NaN. -/
def demoToNum (s : String) : Value :=
  match s.data with
  | [] => .num 0
  | '-' :: rest =>
    match parseDigits 0 rest with
    | some n => if rest = [] then .nan else .num (-(n : Int))
    | none => .nan
  | cs =>
    match parseDigits 0 cs with
    | some n => .num (n : Int)
    | none => .nan

/-- Decimal rendering of a natural number below 1000, enough for the
demo host's render output. -/
def demoDigits (n : Nat) : String :=
  String.mk
    ((if n ≥ 100 then [Char.ofNat (48 + n / 100 % 10)] else []) ++
      (if n ≥ 10 then [Char.ofNat (48 + n / 10 % 10)] else []) ++
      [Char.ofNat (48 + n % 10)])

/-- Decimal rendering of a small integer for the demo host. -/
def demoNumStr (n : Int) : String :=
  if n < 0 then "-" ++ demoDigits n.natAbs else demoDigits n.natAbs

/-- A concrete host: `JSON.parse` always throws (no claim feeds it
well-formed structural input), numeric parsing handles small integers,
and the user render function prints the `count` property. -/
def demoHost : Host :=
  { jparse := fun _ => .error ()
    toNum := demoToNum
    strOfTag := fun _ => ""
    render := fun m =>
      some (match (m.lookup "count").getD .undefined with
            | .num n => demoNumStr n
            | .str s => s
            | _ => "?") }

/-- A component with one reflected numeric property `count` defaulting
to 5, observed, no attribute present. -/
def demoState : CompState :=
  construct demoHost [("count", .schema "number" (.num 5) true false)]
    [] ["count"] "" [] true

/-- A plugin carrying all three lifecycle hooks. -/
def demoPlugin : PluginSpec := ⟨true, true, true⟩

/-- A mounted batched component with one plugin, one render performed,
and one further `set` pending in the scheduler. -/
def demoPending : CompState :=
  step demoHost
    (connectedCallback demoHost
      (construct demoHost [("count", .schema "number" (.num 0) false false)]
        [] ["count"] "" [demoPlugin] true))
    (.setOp "count" (.lit (.num 1)) false false false)

/-- A component holding one property bound to an external reference
whose `get()` returned 7 at construction. -/
def demoRefState : CompState :=
  construct demoHost [("live", .refProp (.num 7))] [] ["live"] "" [] true

/-- A component with a style string, a reference-bound property, a
plain property and three plugins, the middle one carrying no unmount
hook. -/
def demoTeardown : CompState :=
  construct demoHost
    [("live", .refProp (.num 7)), ("t", .schema "string" (.str "a") false false)]
    [] [] "x { color: red }"
    [⟨false, true, true⟩, ⟨true, false, false⟩, ⟨false, false, true⟩] true

/-- A component with a reflected, observed string property `title` and
a reference-bound property `live`. -/
def demoReflect : CompState :=
  construct demoHost
    [("title", .schema "string" (.str "t0") true false),
     ("live", .refProp (.num 7))]
    [] ["title", "live"] "" [] true

/-- A mounted batched component with a reflected, observed numeric
property `count` starting at 0 (mounted by `connectedCallback`). -/
def demoMounted : CompState :=
  connectedCallback demoHost
    (construct demoHost [("count", .schema "number" (.num 0) true false)]
      [] ["count"] "" [] true)

/-- The functional updater `prev => prev + 1` on numbers. -/
def incrArg : SetArg :=
  .updater (fun v => match v with | .num m => .num (m + 1) | x => x) 0

/-! ## Basic lemmas about the association-list store -/

theorem lookup_cons {β : Type} (k k' : String) (v : β) (l : List (String × β)) :
    ((k', v) :: l).lookup k = if k' = k then some v else l.lookup k := by
  by_cases h : k' = k
  · subst h
    simp only [List.lookup, beq_self_eq_true, if_true]
  · have hb : (k' == k) = false := beq_eq_false_iff_ne.mpr h
    have hb' : (k == k') = false := beq_eq_false_iff_ne.mpr (Ne.symm h)
    simp only [List.lookup, hb, hb', if_neg h]

theorem lookup_nil {β : Type} (k : String) :
    (([] : List (String × β)).lookup k) = none := rfl

theorem lookup_aupd_self {β : Type} (k : String) (v : β) (m : List (String × β)) :
    (aupd k v m).lookup k = some v := by
  induction m with
  | nil => simp [aupd, lookup_cons]
  | cons kv rest ih =>
    obtain ⟨k', v'⟩ := kv
    by_cases h : k' = k
    · subst h; simp [aupd, lookup_cons]
    · simp [aupd, h, lookup_cons, ih]

theorem lookup_aupd_ne {β : Type} (k k' : String) (v : β) (m : List (String × β))
    (h : k' ≠ k) : (aupd k v m).lookup k' = m.lookup k' := by
  induction m with
  | nil => simp [aupd, lookup_cons, lookup_nil, Ne.symm h]
  | cons kv rest ih =>
    obtain ⟨k₀, v₀⟩ := kv
    by_cases h0 : k₀ = k
    · subst h0; simp [aupd, lookup_cons, Ne.symm h]
    · simp [aupd, h0, lookup_cons, ih]

theorem aupd_self {β : Type} (k : String) (v : β) (m : List (String × β))
    (h : m.lookup k = some v) : aupd k v m = m := by
  induction m with
  | nil => simp [lookup_nil] at h
  | cons kv rest ih =>
    obtain ⟨k', v'⟩ := kv
    by_cases h0 : k' = k
    · subst h0
      simp only [lookup_cons, if_true, eq_self_iff_true, Option.some.injEq] at h
      subst h
      simp [aupd]
    · simp only [lookup_cons, if_neg h0] at h
      simp [aupd, h0, ih h]

theorem aupd_aupd {β : Type} (k : String) (v v' : β) (m : List (String × β)) :
    aupd k v (aupd k v' m) = aupd k v m := by
  induction m with
  | nil => simp [aupd]
  | cons kv rest ih =>
    obtain ⟨k₀, v₀⟩ := kv
    by_cases h0 : k₀ = k
    · subst h0; simp [aupd]
    · simp [aupd, h0, ih]

theorem str_beq (a b : String) : (Value.str a == Value.str b) = (a == b) := by
  by_cases h : a = b
  · subst h; simp
  · have h1 : (Value.str a == Value.str b) = false :=
      beq_eq_false_iff_ne.mpr (fun hc => h (Value.str.inj hc))
    have h2 : (a == b) = false := beq_eq_false_iff_ne.mpr h
    rw [h1, h2]

/-! ## Effect normal forms for rendering and scheduling -/

/-- The events one `_render()` emits, given the observed props. -/
def renderEvs (host : Host) (m : List (String × Value)) : List Event :=
  match host.render m with
  | some c => if c = "" then [.renderCall m] else [.renderCall m, .innerHTML c]
  | none => [.renderCall m]

/-- The template content after one `_render()`. -/
def renderHTML (host : Host) (m : List (String × Value)) (old : String) : String :=
  match host.render m with
  | some c => if c = "" then old else c
  | none => old

theorem renderNow_eq (host : Host) (s : CompState) :
    renderNow host s =
      { s with log := s.log ++ renderEvs host (readMap s),
               templateHTML := renderHTML host (readMap s) s.templateHTML } := by
  unfold renderNow renderEvs renderHTML pushLog
  cases h : host.render (readMap s) with
  | none => simp [h]
  | some c =>
    by_cases hc : c = ""
    · simp [h, hc]
    · simp [h, hc]

@[simp] theorem readMap_writeMap (s : CompState) (m : List (String × Value)) :
    readMap (writeMap s m) = m := by
  simp [readMap, writeMap]

@[simp] theorem readMap_set_thrown (s : CompState) (b : Bool) :
    readMap { s with thrown := b } = readMap s := rfl

theorem writeMap_self (s : CompState) : writeMap s (readMap s) = s := by
  unfold writeMap readMap
  cases s with
  | mk ds hp prv pb at0 ob hs br rs pf mt th pl tpl lg =>
    simp only [CompState.mk.injEq, and_true, true_and]
    funext j
    by_cases h : j = prv <;> simp [h]

@[simp] theorem countUpdates_append (l₁ l₂ : List Event) :
    countUpdates (l₁ ++ l₂) = countUpdates l₁ + countUpdates l₂ := by
  induction l₁ with
  | nil => simp [countUpdates]
  | cons e l ih => simp [countUpdates, ih]; omega

@[simp] theorem countAttrWrites_append (l₁ l₂ : List Event) :
    countAttrWrites (l₁ ++ l₂) = countAttrWrites l₁ + countAttrWrites l₂ := by
  induction l₁ with
  | nil => simp [countAttrWrites]
  | cons e l ih => simp [countAttrWrites, ih]; omega

@[simp] theorem countWarns_append (l₁ l₂ : List Event) :
    countWarns (l₁ ++ l₂) = countWarns l₁ + countWarns l₂ := by
  induction l₁ with
  | nil => simp [countWarns]
  | cons e l ih => simp [countWarns, ih]; omega

@[simp] theorem countRefSets_append (l₁ l₂ : List Event) :
    countRefSets (l₁ ++ l₂) = countRefSets l₁ + countRefSets l₂ := by
  induction l₁ with
  | nil => simp [countRefSets]
  | cons e l ih => simp [countRefSets, ih]; omega

@[simp] theorem countRenders_append (l₁ l₂ : List Event) :
    countRenders (l₁ ++ l₂) = countRenders l₁ + countRenders l₂ := by
  induction l₁ with
  | nil => simp [countRenders]
  | cons e l ih => simp [countRenders, ih]; omega

@[simp] theorem renderObs_append (l₁ l₂ : List Event) :
    renderObs (l₁ ++ l₂) = renderObs l₁ ++ renderObs l₂ := by
  induction l₁ with
  | nil => simp [renderObs]
  | cons e l ih =>
    cases e <;> simp [renderObs, ih]

@[simp] theorem countUpdates_renderEvs (host : Host) (m : List (String × Value)) :
    countUpdates (renderEvs host m) = 0 := by
  unfold renderEvs
  cases h : host.render m with
  | none => simp [countUpdates]
  | some c =>
    by_cases hc : c = "" <;> simp [hc, countUpdates]

@[simp] theorem countAttrWrites_renderEvs (host : Host) (m : List (String × Value)) :
    countAttrWrites (renderEvs host m) = 0 := by
  unfold renderEvs
  cases h : host.render m with
  | none => simp [countAttrWrites]
  | some c =>
    by_cases hc : c = "" <;> simp [hc, countAttrWrites]

@[simp] theorem countWarns_renderEvs (host : Host) (m : List (String × Value)) :
    countWarns (renderEvs host m) = 0 := by
  unfold renderEvs
  cases h : host.render m with
  | none => simp [countWarns]
  | some c =>
    by_cases hc : c = "" <;> simp [hc, countWarns]

@[simp] theorem countRefSets_renderEvs (host : Host) (m : List (String × Value)) :
    countRefSets (renderEvs host m) = 0 := by
  unfold renderEvs
  cases h : host.render m with
  | none => simp [countRefSets]
  | some c =>
    by_cases hc : c = "" <;> simp [hc, countRefSets]

@[simp] theorem countRenders_renderEvs (host : Host) (m : List (String × Value)) :
    countRenders (renderEvs host m) = 1 := by
  unfold renderEvs
  cases h : host.render m with
  | none => simp [countRenders]
  | some c =>
    by_cases hc : c = "" <;> simp [hc, countRenders]

@[simp] theorem renderObs_renderEvs (host : Host) (m : List (String × Value)) :
    renderObs (renderEvs host m) = [m] := by
  unfold renderEvs
  cases h : host.render m with
  | none => simp [renderObs]
  | some c =>
    by_cases hc : c = "" <;> simp [hc, renderObs]

/-! ## Normal forms for the steps of `set` -/

@[simp] theorem writeMap_defs (s : CompState) (m : List (String × Value)) :
    (writeMap s m).defs = s.defs := rfl

@[simp] theorem writeMap_attrs (s : CompState) (m : List (String × Value)) :
    (writeMap s m).attrs = s.attrs := rfl

@[simp] theorem writeMap_log (s : CompState) (m : List (String × Value)) :
    (writeMap s m).log = s.log := rfl

@[simp] theorem writeMap_thrown (s : CompState) (m : List (String × Value)) :
    (writeMap s m).thrown = s.thrown := rfl

@[simp] theorem writeMap_observedAttrs (s : CompState) (m : List (String × Value)) :
    (writeMap s m).observedAttrs = s.observedAttrs := rfl

@[simp] theorem writeMap_mounted (s : CompState) (m : List (String × Value)) :
    (writeMap s m).mounted = s.mounted := rfl

@[simp] theorem writeMap_batchRender (s : CompState) (m : List (String × Value)) :
    (writeMap s m).batchRender = s.batchRender := rfl

@[simp] theorem writeMap_renderScheduled (s : CompState) (m : List (String × Value)) :
    (writeMap s m).renderScheduled = s.renderScheduled := rfl

@[simp] theorem writeMap_pendingFlush (s : CompState) (m : List (String × Value)) :
    (writeMap s m).pendingFlush = s.pendingFlush := rfl

@[simp] theorem writeMap_templateHTML (s : CompState) (m : List (String × Value)) :
    (writeMap s m).templateHTML = s.templateHTML := rfl

@[simp] theorem attrLogged_defs (s : CompState) (k va : String) :
    (attrLogged s k va).defs = s.defs := rfl

@[simp] theorem attrLogged_readMap (s : CompState) (k va : String) :
    readMap (attrLogged s k va) = readMap s := rfl

@[simp] theorem attrLogged_observedAttrs (s : CompState) (k va : String) :
    (attrLogged s k va).observedAttrs = s.observedAttrs := rfl

@[simp] theorem attrLogged_thrown (s : CompState) (k va : String) :
    (attrLogged s k va).thrown = s.thrown := rfl

@[simp] theorem attrLogged_attrs (s : CompState) (k va : String) :
    (attrLogged s k va).attrs = aupd k va s.attrs := rfl

@[simp] theorem attrLogged_log (s : CompState) (k va : String) :
    (attrLogged s k va).log = s.log ++ [.setAttr k va] := rfl

@[simp] theorem attrLogged_mounted (s : CompState) (k va : String) :
    (attrLogged s k va).mounted = s.mounted := rfl

@[simp] theorem attrLogged_batchRender (s : CompState) (k va : String) :
    (attrLogged s k va).batchRender = s.batchRender := rfl

@[simp] theorem attrLogged_renderScheduled (s : CompState) (k va : String) :
    (attrLogged s k va).renderScheduled = s.renderScheduled := rfl

@[simp] theorem attrLogged_pendingFlush (s : CompState) (k va : String) :
    (attrLogged s k va).pendingFlush = s.pendingFlush := rfl

theorem setNotify_eq (s : CompState) (key : String) :
    setNotify s key =
      { s with log := s.log ++ [.update [(key, jsGet s key)] (readMap s)] } := rfl

theorem setRefPush_eq (s : CompState) (key : String) (d : PropDef)
    (fromRef : Bool) :
    setRefPush s key d fromRef =
      { s with log := s.log ++
          (if d.hasRef = true ∧ fromRef = false
            then [.refSet key (jsGet s key)] else []) } := by
  unfold setRefPush pushLog
  split_ifs with h <;> simp

theorem scheduleRender_eq (host : Host) (s : CompState) :
    scheduleRender host s =
      if s.batchRender = false then
        { s with log := s.log ++ renderEvs host (readMap s),
                 templateHTML := renderHTML host (readMap s) s.templateHTML }
      else if s.renderScheduled = true then s
      else { s with renderScheduled := true, pendingFlush := true } := by
  unfold scheduleRender
  cases hb : s.batchRender with
  | false => simp [renderNow_eq, hb]
  | true => cases hr : s.renderScheduled <;> simp

@[simp] theorem setTail_attrs (host : Host) (t : CompState) (key : String)
    (d : PropDef) (fr : Bool) : (setTail host t key d fr).attrs = t.attrs := by
  simp only [setTail, setSchedule, setRefPush_eq, setNotify_eq, scheduleRender_eq]
  split_ifs <;> rfl

@[simp] theorem setTail_readMap (host : Host) (t : CompState) (key : String)
    (d : PropDef) (fr : Bool) : readMap (setTail host t key d fr) = readMap t := by
  simp only [setTail, setSchedule, setRefPush_eq, setNotify_eq, scheduleRender_eq]
  split_ifs <;> rfl

@[simp] theorem setTail_defs (host : Host) (t : CompState) (key : String)
    (d : PropDef) (fr : Bool) : (setTail host t key d fr).defs = t.defs := by
  simp only [setTail, setSchedule, setRefPush_eq, setNotify_eq, scheduleRender_eq]
  split_ifs <;> rfl

@[simp] theorem setTail_observedAttrs (host : Host) (t : CompState) (key : String)
    (d : PropDef) (fr : Bool) :
    (setTail host t key d fr).observedAttrs = t.observedAttrs := by
  simp only [setTail, setSchedule, setRefPush_eq, setNotify_eq, scheduleRender_eq]
  split_ifs <;> rfl

@[simp] theorem setTail_thrown (host : Host) (t : CompState) (key : String)
    (d : PropDef) (fr : Bool) : (setTail host t key d fr).thrown = t.thrown := by
  simp only [setTail, setSchedule, setRefPush_eq, setNotify_eq, scheduleRender_eq]
  split_ifs <;> rfl

@[simp] theorem setTail_mounted (host : Host) (t : CompState) (key : String)
    (d : PropDef) (fr : Bool) : (setTail host t key d fr).mounted = t.mounted := by
  simp only [setTail, setSchedule, setRefPush_eq, setNotify_eq, scheduleRender_eq]
  split_ifs <;> rfl

@[simp] theorem setTail_batchRender (host : Host) (t : CompState) (key : String)
    (d : PropDef) (fr : Bool) :
    (setTail host t key d fr).batchRender = t.batchRender := by
  simp only [setTail, setSchedule, setRefPush_eq, setNotify_eq, scheduleRender_eq]
  split_ifs <;> rfl

@[simp] theorem setTail_countAttrWrites (host : Host) (t : CompState) (key : String)
    (d : PropDef) (fr : Bool) :
    countAttrWrites (setTail host t key d fr).log = countAttrWrites t.log := by
  simp only [setTail, setSchedule, setRefPush_eq, setNotify_eq, scheduleRender_eq]
  split_ifs <;> simp [countAttrWrites]

@[simp] theorem setTail_countUpdates (host : Host) (t : CompState) (key : String)
    (d : PropDef) (fr : Bool) :
    countUpdates (setTail host t key d fr).log = countUpdates t.log + 1 := by
  simp only [setTail, setSchedule, setRefPush_eq, setNotify_eq, scheduleRender_eq]
  split_ifs <;> simp [countUpdates]

@[simp] theorem setTail_countWarns (host : Host) (t : CompState) (key : String)
    (d : PropDef) (fr : Bool) :
    countWarns (setTail host t key d fr).log = countWarns t.log := by
  simp only [setTail, setSchedule, setRefPush_eq, setNotify_eq, scheduleRender_eq]
  split_ifs <;> simp [countWarns]

@[simp] theorem setTail_countRefSets (host : Host) (t : CompState) (key : String)
    (d : PropDef) (fr : Bool) :
    countRefSets (setTail host t key d fr).log =
      countRefSets t.log + (if d.hasRef = true ∧ fr = false then 1 else 0) := by
  simp only [setTail, setSchedule, setRefPush_eq, setNotify_eq, scheduleRender_eq]
  split_ifs <;> simp [countRefSets]

theorem setTail_countRenders_batch (host : Host) (t : CompState) (key : String)
    (d : PropDef) (fr : Bool) (hb : t.batchRender = true) :
    countRenders (setTail host t key d fr).log = countRenders t.log := by
  simp only [setTail, setSchedule, setRefPush_eq, setNotify_eq, scheduleRender_eq]
  split_ifs <;> simp_all [countRenders]

theorem setTail_renderObs_batch (host : Host) (t : CompState) (key : String)
    (d : PropDef) (fr : Bool) (hb : t.batchRender = true) :
    renderObs (setTail host t key d fr).log = renderObs t.log := by
  simp only [setTail, setSchedule, setRefPush_eq, setNotify_eq, scheduleRender_eq]
  split_ifs <;> simp_all [renderObs]

theorem setTail_templateHTML_batch (host : Host) (t : CompState) (key : String)
    (d : PropDef) (fr : Bool) (hb : t.batchRender = true) :
    (setTail host t key d fr).templateHTML = t.templateHTML := by
  simp only [setTail, setSchedule, setRefPush_eq, setNotify_eq, scheduleRender_eq]
  split_ifs <;> simp_all

theorem setTail_sched_batch (host : Host) (t : CompState) (key : String)
    (d : PropDef) (fr : Bool) (hb : t.batchRender = true)
    (hnr : d.noRender = false) (hm : t.mounted = true) :
    (setTail host t key d fr).renderScheduled = true ∧
      (setTail host t key d fr).pendingFlush =
        (t.pendingFlush || !t.renderScheduled) := by
  simp only [setTail, setSchedule, setRefPush_eq, setNotify_eq, scheduleRender_eq]
  split_ifs <;> simp_all

theorem setTail_sched_already (host : Host) (t : CompState) (key : String)
    (d : PropDef) (fr : Bool) (hb : t.batchRender = true)
    (hrs : t.renderScheduled = true) :
    (setTail host t key d fr).renderScheduled = true ∧
      (setTail host t key d fr).pendingFlush = t.pendingFlush := by
  simp only [setTail, setSchedule, setRefPush_eq, setNotify_eq, scheduleRender_eq]
  split_ifs <;> simp_all

theorem setTail_no_sched (host : Host) (t : CompState) (key : String)
    (d : PropDef) (fr : Bool)
    (h : ¬ (d.noRender = false ∧ t.mounted = true)) :
    (setTail host t key d fr).renderScheduled = t.renderScheduled ∧
      (setTail host t key d fr).pendingFlush = t.pendingFlush := by
  simp only [setTail, setSchedule, setRefPush_eq, setNotify_eq, scheduleRender_eq]
  split_ifs <;> simp_all

/-- The outer `set` under a known key and definition: assignment,
guarded reflection through the host, exception check, tail. -/
theorem jsSet_known (host : Host) (s : CompState) (key : String) (arg : SetArg)
    (noReflect fromRef noExecution : Bool) (prev : Value) (d : PropDef)
    (hp : (readMap s).lookup key = some prev)
    (hd : s.defs.lookup key = some d) :
    jsSet host s key arg noReflect fromRef noExecution =
      (let newVal := applyArg arg prev noExecution
       let w := writeMap s (aupd key newVal (readMap s))
       let r := if prev ≠ newVal ∧ d.reflect = true ∧ noReflect = false then
                  hostSetAttribute host w key (toAttrString host newVal)
                else w
       if r.thrown = true then r else setTail host r key d fromRef) := by
  unfold jsSet jsSetCore
  simp only [hp, hd]

/-- An attribute write on an unobserved attribute only records the
value. -/
theorem hostSetAttribute_not_observed (host : Host) (t : CompState)
    (key va : String) (h : key ∉ t.observedAttrs) :
    hostSetAttribute host t key va = attrLogged t key va := by
  unfold hostSetAttribute
  simp [h]

/-- An observed attribute write whose key has a definition bound to an
external reference records the value and then ignores the change (the
reference, not the attribute, is authoritative) — provided the
coercion succeeds. -/
theorem hostSetAttribute_ref (host : Host) (t : CompState) (key va : String)
    (d : PropDef) (w : Value)
    (hd : t.defs.lookup key = some d) (hobs : key ∈ t.observedAttrs)
    (hrref : d.hasRef = true) (hc : castValue host (.str va) d.type = .ok w) :
    hostSetAttribute host t key va = attrLogged t key va := by
  unfold hostSetAttribute attributeChangedCallback
  simp [hobs, hd, hc, hrref]

/-- An observed attribute write on a known non-reference key: record
the value, coerce, and perform a non-reflecting, non-reference `set`. -/
theorem hostSetAttribute_known (host : Host) (t : CompState) (key va : String)
    (d : PropDef) (p w : Value)
    (hd : t.defs.lookup key = some d) (hobs : key ∈ t.observedAttrs)
    (hc : castValue host (.str va) d.type = .ok w) (href : d.hasRef = false)
    (hp : (readMap t).lookup key = some p) (hth : t.thrown = false) :
    hostSetAttribute host t key va =
      setTail host (writeMap (attrLogged t key va) (aupd key w (readMap t)))
        key d false := by
  unfold hostSetAttribute attributeChangedCallback jsSetNR jsSetCore
  simp [hobs, hd, hc, href, hp, applyArg, hth]

/-- An observed attribute write on a reference-bound key never touches
the property store, whether or not the coercion succeeds. -/
theorem hostSetAttribute_ref_cases (host : Host) (t : CompState) (key va : String)
    (d : PropDef) (hd : t.defs.lookup key = some d) (hobs : key ∈ t.observedAttrs)
    (hrref : d.hasRef = true) :
    readMap (hostSetAttribute host t key va) = readMap t := by
  unfold hostSetAttribute attributeChangedCallback
  cases hc : castValue host (.str va) d.type with
  | error e =>
    simp only [attrLogged_observedAttrs, hobs, if_pos, attrLogged_defs, hd, hc]
    rfl
  | ok w => simp [hobs, hd, hc, hrref]

/-- An observed attribute write on a reference-bound key fires no
update notification, whether or not the coercion succeeds. -/
theorem hostSetAttribute_ref_cases_updates (host : Host) (t : CompState)
    (key va : String) (d : PropDef)
    (hd : t.defs.lookup key = some d) (hobs : key ∈ t.observedAttrs)
    (hrref : d.hasRef = true) :
    countUpdates (hostSetAttribute host t key va).log = countUpdates t.log := by
  unfold hostSetAttribute attributeChangedCallback
  cases hc : castValue host (.str va) d.type with
  | error e => simp [hobs, hd, hc, countUpdates]
  | ok w => simp [hobs, hd, hc, hrref, countUpdates]

/-! ## C8 — the coercion function matches its reference definition -/

/-- C8: for every serialized string `s` and declared type `t`, the
code's `castValue` agrees with the specification's reference
definition of `coerce` (numeric parse for `number`; structured parse
for `array`/`object` with the literal `"undefined"` object string
yielding no value; `boolean` true iff `"true"` or the empty string;
anything else returned unchanged; failure exactly when the structured
parse of an `array`/`object` string throws). -/
theorem castValue_refines_coerceSpec (host : Host) (s t : String) :
    castValue host (.str s) t = coerceSpec host s t := by
  unfold castValue coerceSpec jsToNum
  split_ifs <;> simp_all [str_beq]

/-! ## C3 — unknown keys: `set` warns and is a no-op, `get` is silent -/

/-- C3 counterexample: reading an unknown key adds no warning to the
log (the source `get` is `return this._props[key]`, with no warning
channel), contradicting the claim that `get` logs an
`UnknownKeyWarning`; the read does return `undefined`. -/
theorem get_unknown_key_counterexample :
    ¬ (countWarns ((step demoHost demoState (.getOp "doesNotExist")).log) =
        countWarns demoState.log + 1 ∧
       jsGet demoState "doesNotExist" = .undefined) := by
  decide

/-- C3 amended: for a key absent from the property store, `get`
returns `undefined` and performs no logging or state change at all,
while `set` logs exactly one warning and changes nothing else — it
does not throw and mutates no property. -/
theorem unknown_key_get_silent_set_warns (host : Host) (s : CompState)
    (key : String) (arg : SetArg) (noReflect fromRef noExecution : Bool)
    (h : (readMap s).lookup key = none) :
    jsGet s key = .undefined ∧
      step host s (.getOp key) = s ∧
      jsSet host s key arg noReflect fromRef noExecution =
        pushLog s (.warn key) := by
  refine ⟨?_, rfl, ?_⟩
  · simp [jsGet, h]
  · unfold jsSet jsSetCore
    simp [h]

/-- C3 witness. -/
theorem unknown_key_witness :
    jsGet demoState "doesNotExist" = .undefined ∧
      step demoHost demoState (.getOp "doesNotExist") = demoState ∧
      jsSet demoHost demoState "doesNotExist" (.lit (.num 1)) false false false =
        pushLog demoState (.warn "doesNotExist") :=
  unknown_key_get_silent_set_warns demoHost demoState "doesNotExist"
    (.lit (.num 1)) false false false (by decide)

/-! ## C1 — `set` with an unchanged value -/

/-- C1 counterexample: with the declared reflected property `count`
currently `5`, the call `set("count", 5)` leaves the value unchanged,
yet the update-notification hook fires (the source calls `onUpdate`
unconditionally; only reflection is guarded by `prev !==`), refuting
the claim that `set` is a no-op on an unchanged value. -/
theorem set_unchanged_counterexample :
    ¬ (countUpdates ((jsSet demoHost demoState "count"
          (.lit (.num 5)) false false false).log) =
        countUpdates demoState.log) := by
  decide

/-- C1 amended: when `set(key, v)` leaves the value unchanged, no
attribute reflection occurs (no attribute write, attributes and the
store unchanged), but the update-notification hook is still invoked
exactly once. -/
theorem set_unchanged_no_reflection_but_notifies (host : Host) (s : CompState)
    (key : String) (arg : SetArg) (noReflect fromRef noExecution : Bool)
    (prev : Value) (d : PropDef)
    (hp : (readMap s).lookup key = some prev)
    (hd : s.defs.lookup key = some d)
    (hth : s.thrown = false)
    (heq : applyArg arg prev noExecution = prev) :
    countAttrWrites (jsSet host s key arg noReflect fromRef noExecution).log =
        countAttrWrites s.log ∧
      (jsSet host s key arg noReflect fromRef noExecution).attrs = s.attrs ∧
      countUpdates (jsSet host s key arg noReflect fromRef noExecution).log =
        countUpdates s.log + 1 ∧
      readMap (jsSet host s key arg noReflect fromRef noExecution) = readMap s := by
  have hmap : aupd key prev (readMap s) = readMap s := aupd_self _ _ _ hp
  rw [jsSet_known host s key arg noReflect fromRef noExecution prev d hp hd]
  simp [heq, hmap, writeMap_self, hth]

/-- C1 witness. -/
theorem set_unchanged_witness :
    countAttrWrites (jsSet demoHost demoState "count"
        (.lit (.num 5)) false false false).log =
        countAttrWrites demoState.log ∧
      (jsSet demoHost demoState "count" (.lit (.num 5)) false false false).attrs =
        demoState.attrs ∧
      countUpdates (jsSet demoHost demoState "count"
        (.lit (.num 5)) false false false).log =
        countUpdates demoState.log + 1 ∧
      readMap (jsSet demoHost demoState "count" (.lit (.num 5)) false false false) =
        readMap demoState :=
  set_unchanged_no_reflection_but_notifies demoHost demoState "count"
    (.lit (.num 5)) false false false (.num 5)
    ⟨"number", .num 5, true, false, false⟩
    (by decide) (by decide) (by decide) (by decide)

/-! ## C9 — constructor initialization from a present but falsy attribute -/

/-- A component whose `count` attribute is present with the string
`"0"` and whose declared default is 5. -/
def demoFalsy : CompState :=
  construct demoHost [("count", .schema "number" (.num 5) false false)]
    [("count", "0")] [] "" [] true

/-- C9 counterexample: the attribute string `"0"` is truthy in JS, so
construction coerces it (`get("count") = 0`) instead of falling back to
the declared default 5, refuting the claim that the falsy-looking
strings `"0"` and `"false"` select the default. -/
theorem construct_falsy_attr_counterexample :
    ¬ (jsGet demoFalsy "count" = .num 5) ∧ jsGet demoFalsy "count" = .num 0 := by
  decide

theorem initProps_lookup (host : Host) (attrs : List (String × String))
    (raws : List (String × RawProp)) (k : String) (raw : RawProp)
    (hk : raws.lookup k = some raw)
    (hth : (initProps host attrs raws).2.2 = false) :
    ∃ v, initValue host attrs k raw = .ok v ∧
      (initProps host attrs raws).2.1.lookup k = some v := by
  induction raws with
  | nil => simp [lookup_nil] at hk
  | cons kv rest ih =>
    obtain ⟨k₀, raw₀⟩ := kv
    by_cases h0 : k₀ = k
    · subst h0
      rw [lookup_cons, if_pos rfl, Option.some.injEq] at hk
      subst hk
      unfold initProps at hth ⊢
      cases hv : initValue host attrs k₀ raw₀ with
      | error e => simp [hv] at hth
      | ok v =>
        simp only [hv]
        exact ⟨v, rfl, by rw [lookup_cons, if_pos rfl]⟩
    · rw [lookup_cons, if_neg h0] at hk
      unfold initProps at hth ⊢
      cases hv : initValue host attrs k₀ raw₀ with
      | error e => simp [hv] at hth
      | ok v =>
        simp only [hv] at hth ⊢
        obtain ⟨w, hw, hl⟩ := ih hk hth
        exact ⟨w, hw, by rw [lookup_cons, if_neg h0]; exact hl⟩

/-- C9 amended: for a declared schema property, construction falls back
to the declared default exactly when the attribute is absent or is the
empty string (the only falsy attribute string); any other present
attribute string — including `"0"` and `"false"` — is truthy and is
coerced through `castValue`. -/
theorem construct_initial_value (host : Host) (raws : List (String × RawProp))
    (attrs : List (String × String)) (observed : List String) (styles : String)
    (plugins : List PluginSpec) (batch : Bool) (k t : String) (dflt : Value)
    (r nr : Bool)
    (hk : raws.lookup k = some (.schema t dflt r nr))
    (hth : (construct host raws attrs observed styles plugins batch).thrown = false) :
    (attrs.lookup k = some "" →
        jsGet (construct host raws attrs observed styles plugins batch) k = dflt) ∧
      (attrs.lookup k = none →
        jsGet (construct host raws attrs observed styles plugins batch) k = dflt) ∧
      (∀ a w, attrs.lookup k = some a → a ≠ "" →
        castValue host (.str a) t = .ok w →
        jsGet (construct host raws attrs observed styles plugins batch) k = w) := by
  have hth' : (initProps host attrs raws).2.2 = false := by
    simpa [construct] using hth
  obtain ⟨v, hv, hl⟩ := initProps_lookup host attrs raws k _ hk hth'
  have hread : readMap (construct host raws attrs observed styles plugins batch) =
      (initProps host attrs raws).2.1 := by
    simp [construct, readMap, hth']
  have hget : jsGet (construct host raws attrs observed styles plugins batch) k =
      v := by
    simp [jsGet, hread, hl]
  refine ⟨?_, ?_, ?_⟩
  · intro ha
    rw [hget]
    unfold initValue at hv
    simp only [ha, castProp] at hv
    simp [jsTruthy] at hv
    exact hv.symm
  · intro ha
    rw [hget]
    unfold initValue at hv
    simp only [ha, castProp] at hv
    simp at hv
    exact hv.symm
  · intro a w ha hne hc
    rw [hget]
    unfold initValue at hv
    simp only [ha, castProp] at hv
    simp [jsTruthy, hne, hc] at hv
    exact hv.symm

/-- C9 witness: with the attribute `"0"` present, the initial value is
the coerced 0, not the default 5. -/
theorem construct_initial_value_witness :
    ((([("count", "0")] : List (String × String)).lookup "count" = some "" →
        jsGet demoFalsy "count" = .num 5) ∧
      (([("count", "0")] : List (String × String)).lookup "count" = none →
        jsGet demoFalsy "count" = .num 5) ∧
      (∀ a w, ([("count", "0")] : List (String × String)).lookup "count" = some a →
        a ≠ "" → castValue demoHost (.str a) "number" = .ok w →
        jsGet demoFalsy "count" = w)) :=
  construct_initial_value demoHost
    [("count", .schema "number" (.num 5) false false)] [("count", "0")] [] ""
    [] true "count" "number" (.num 5) false false (by decide) (by decide)

/-! ## C6 — external-reference cycle prevention -/

/-- C6: for a property bound to an external reference (whose normalized
definition does not reflect, as `castProp` produces), a value pushed by
the reference through its subscription (`set(key, v, false, true)`)
updates the store without any feedback call to the reference's setter,
while an ordinary write (not originating from the reference) updates
the store and pushes to the reference's setter exactly once. -/
theorem external_ref_cycle_safety (host : Host) (s : CompState) (key : String)
    (v prev : Value) (d : PropDef)
    (hp : (readMap s).lookup key = some prev)
    (hd : s.defs.lookup key = some d)
    (href : d.hasRef = true)
    (hrefl : d.reflect = false)
    (hth : s.thrown = false) :
    (jsGet (jsSet host s key (.lit v) false true false) key = v ∧
      countRefSets (jsSet host s key (.lit v) false true false).log =
        countRefSets s.log) ∧
    (jsGet (jsSet host s key (.lit v) false false false) key = v ∧
      countRefSets (jsSet host s key (.lit v) false false false).log =
        countRefSets s.log + 1) := by
  constructor
  · rw [jsSet_known host s key (.lit v) false true false prev d hp hd]
    simp [applyArg, hrefl, hth, jsGet, readMap_writeMap, lookup_aupd_self, href]
  · rw [jsSet_known host s key (.lit v) false false false prev d hp hd]
    simp [applyArg, hrefl, hth, jsGet, readMap_writeMap, lookup_aupd_self, href]

/-- C6 witness: the reference-bound property `live` (initially 7); a
push of 8 from the reference causes no feedback, an external write of 8
causes exactly one push. -/
theorem external_ref_cycle_safety_witness :
    (jsGet (jsSet demoHost demoRefState "live" (.lit (.num 8)) false true false)
        "live" = .num 8 ∧
      countRefSets (jsSet demoHost demoRefState "live"
        (.lit (.num 8)) false true false).log =
        countRefSets demoRefState.log) ∧
    (jsGet (jsSet demoHost demoRefState "live" (.lit (.num 8)) false false false)
        "live" = .num 8 ∧
      countRefSets (jsSet demoHost demoRefState "live"
        (.lit (.num 8)) false false false).log =
        countRefSets demoRefState.log + 1) :=
  external_ref_cycle_safety demoHost demoRefState "live" (.num 8) (.num 7)
    ⟨"number", .num 7, false, false, true⟩
    (by decide) (by decide) (by decide) (by decide) (by decide)

/-! ## C7 — teardown ordering and exactly-once plugin unmount -/

/-- Number of unmount invocations of the plugin at index `i` recorded
in a log. -/
def countPU (i : Nat) : List Event → Nat
  | [] => 0
  | .pluginUnmount j :: l => (if j = i then 1 else 0) + countPU i l
  | _ :: l => countPU i l

@[simp] theorem countPU_append (i : Nat) (l₁ l₂ : List Event) :
    countPU i (l₁ ++ l₂) = countPU i l₁ + countPU i l₂ := by
  induction l₁ with
  | nil => simp [countPU]
  | cons e l ih =>
    cases e <;> simp [countPU, ih] <;> omega

/-- Whether the plugin at index `i` of the declared list carries an
unmount hook: the number of unmount invocations one teardown owes it. -/
def unmountCountAt : List PluginSpec → Nat → Nat
  | [], _ => 0
  | p :: _, 0 => if p.hasUnmount then 1 else 0
  | _ :: rest, n + 1 => unmountCountAt rest n

theorem countPU_pluginUnmountEvents_lt (ps : List PluginSpec) (j i : Nat)
    (h : i < j) : countPU i (pluginUnmountEvents j ps) = 0 := by
  induction ps generalizing j with
  | nil => simp [pluginUnmountEvents, countPU]
  | cons p rest ih =>
    have h1 : i < j + 1 := Nat.lt_succ_of_lt h
    by_cases hu : p.hasUnmount <;>
      simp [pluginUnmountEvents, hu, countPU, Nat.ne_of_gt h, ih _ h1]

theorem countPU_pluginUnmountEvents (ps : List PluginSpec) (j i : Nat) :
    countPU (j + i) (pluginUnmountEvents j ps) = unmountCountAt ps i := by
  induction ps generalizing j i with
  | nil => simp [pluginUnmountEvents, countPU, unmountCountAt]
  | cons p rest ih =>
    cases i with
    | zero =>
      have hz : countPU j (pluginUnmountEvents (j + 1) rest) = 0 :=
        countPU_pluginUnmountEvents_lt rest (j + 1) j (Nat.lt_succ_self j)
      by_cases hu : p.hasUnmount <;>
        simp [pluginUnmountEvents, hu, countPU, unmountCountAt, hz]
    | succ i' =>
      have harith : j + (i' + 1) = (j + 1) + i' := by omega
      have hne : ¬ (j = (j + 1) + i') := by omega
      by_cases hu : p.hasUnmount <;>
        simp [pluginUnmountEvents, hu, countPU, unmountCountAt, hne,
          harith, ih (j + 1) i']

theorem countPU_unsubEvents (i : Nat) (ds : List (String × PropDef)) :
    countPU i (unsubEvents ds) = 0 := by
  induction ds with
  | nil => simp [unsubEvents, countPU]
  | cons kd rest ih =>
    obtain ⟨k, d⟩ := kd
    by_cases hr : d.hasRef <;> simp [unsubEvents, hr, countPU, ih]

theorem countPU_pluginPreMountEvents (i : Nat) (j : Nat) (ps : List PluginSpec) :
    countPU i (pluginPreMountEvents j ps) = 0 := by
  induction ps generalizing j with
  | nil => simp [pluginPreMountEvents, countPU]
  | cons p rest ih =>
    by_cases hu : p.hasPreMount <;>
      simp [pluginPreMountEvents, hu, countPU, ih]

theorem countPU_pluginMountEvents (i : Nat) (j : Nat) (ps : List PluginSpec) :
    countPU i (pluginMountEvents j ps) = 0 := by
  induction ps generalizing j with
  | nil => simp [pluginMountEvents, countPU]
  | cons p rest ih =>
    by_cases hu : p.hasMount <;>
      simp [pluginMountEvents, hu, countPU, ih]

theorem countPU_renderEvs (i : Nat) (host : Host) (m : List (String × Value)) :
    countPU i (renderEvs host m) = 0 := by
  unfold renderEvs
  cases h : host.render m with
  | none => simp [countPU]
  | some c => by_cases hc : c = "" <;> simp [hc, countPU]

/-- C7: teardown runs, in order, `onUnmount`, then removal of the owned
style node (when one exists), then one unsubscribe per
reference-bound property in declaration order, then every plugin's
unmount hook in declared order; each plugin carrying an unmount hook is
invoked exactly once per teardown, and across a detach–reattach–detach
cycle exactly twice. -/
theorem disconnect_teardown_order (host : Host) (s : CompState) :
    (disconnectedCallback s).log =
      s.log ++ [.onUnmountE] ++
        (if s.hasStyles then [.removeStylesE] else []) ++
        unsubEvents s.defs ++ pluginUnmountEvents 0 s.plugins ∧
    (∀ i, countPU i (disconnectedCallback s).log =
      countPU i s.log + unmountCountAt s.plugins i) ∧
    (∀ i, countPU i (disconnectedCallback
        (connectedCallback host (disconnectedCallback s))).log =
      countPU i s.log + 2 * unmountCountAt s.plugins i) := by
  have hlog : ∀ t : CompState, (disconnectedCallback t).log =
      t.log ++ [.onUnmountE] ++
        (if t.hasStyles then [.removeStylesE] else []) ++
        unsubEvents t.defs ++ pluginUnmountEvents 0 t.plugins := by
    intro t
    unfold disconnectedCallback pushLog
    by_cases h : t.hasStyles <;> simp [h]
  have hcount : ∀ t : CompState, ∀ i, countPU i (disconnectedCallback t).log =
      countPU i t.log + unmountCountAt t.plugins i := by
    intro t i
    have h0 : countPU (0 + i) (pluginUnmountEvents 0 t.plugins) =
        unmountCountAt t.plugins i := countPU_pluginUnmountEvents t.plugins 0 i
    rw [hlog t]
    by_cases h : t.hasStyles <;>
      simp_all [countPU, countPU_unsubEvents]
  refine ⟨hlog s, hcount s, ?_⟩
  intro i
  have hconn : ∀ t : CompState,
      countPU i (connectedCallback host t).log = countPU i t.log ∧
        (connectedCallback host t).plugins = t.plugins ∧
        (connectedCallback host t).defs = t.defs ∧
        (connectedCallback host t).hasStyles = t.hasStyles := by
    intro t
    unfold connectedCallback
    simp [pushLog, renderNow_eq, countPU, countPU_pluginPreMountEvents,
      countPU_pluginMountEvents, countPU_renderEvs]
  have hd1 := hcount s
  have hplug : (disconnectedCallback s).plugins = s.plugins := by
    unfold disconnectedCallback pushLog
    by_cases h : s.hasStyles <;> simp [h]
  rw [hcount _ i, (hconn _).2.1, hplug, (hconn _).1, hcount _ i]
  omega

/-- C7 witness: a component with three plugins (the middle one carrying
no unmount hook), a style node and one reference-bound property. -/
theorem disconnect_teardown_order_witness :
    ((disconnectedCallback demoTeardown).log =
      demoTeardown.log ++ [.onUnmountE] ++
        (if demoTeardown.hasStyles then [.removeStylesE] else []) ++
        unsubEvents demoTeardown.defs ++
        pluginUnmountEvents 0 demoTeardown.plugins ∧
    (∀ i, countPU i (disconnectedCallback demoTeardown).log =
      countPU i demoTeardown.log + unmountCountAt demoTeardown.plugins i) ∧
    (∀ i, countPU i (disconnectedCallback
        (connectedCallback demoHost (disconnectedCallback demoTeardown))).log =
      countPU i demoTeardown.log + 2 * unmountCountAt demoTeardown.plugins i)) :=
  disconnect_teardown_order demoHost demoTeardown

/-! ## C5 — reflection round-trip without feedback -/

/-- C5: for an observed, reflected property with no external reference,
`set(key, "x")` leaves the host attribute serialized as `"x"` (one
attribute write); a subsequent out-of-band attribute mutation to `"y"`
makes `get(key)` equal the coercion of `"y"` at the declared type while
performing no further attribute write beyond the mutation itself (the
attribute-changed path re-enters `set` with `noReflect`, so there is no
loop); and for a property bound to an external reference an attribute
mutation leaves the store untouched and fires no update notification. -/
theorem reflection_round_trip (host : Host) (s : CompState) (key kr : String)
    (prev : Value) (d dr : PropDef) (wx wy : Value)
    (hp : (readMap s).lookup key = some prev)
    (hd : s.defs.lookup key = some d)
    (hrefl : d.reflect = true)
    (href : d.hasRef = false)
    (hobs : key ∈ s.observedAttrs)
    (hth : s.thrown = false)
    (hprev : prev ≠ .str "x")
    (hcx : castValue host (.str "x") d.type = .ok wx)
    (hcy : castValue host (.str "y") d.type = .ok wy)
    (hdr : s.defs.lookup kr = some dr)
    (hrref : dr.hasRef = true) :
    ((jsSet host s key (.lit (.str "x")) false false false).attrs.lookup key =
        some "x" ∧
      countAttrWrites (jsSet host s key
        (.lit (.str "x")) false false false).log = countAttrWrites s.log + 1) ∧
    (jsGet (hostSetAttribute host
        (jsSet host s key (.lit (.str "x")) false false false) key "y") key = wy ∧
      countAttrWrites (hostSetAttribute host
        (jsSet host s key (.lit (.str "x")) false false false) key "y").log =
        countAttrWrites (jsSet host s key
          (.lit (.str "x")) false false false).log + 1 ∧
      (hostSetAttribute host
        (jsSet host s key (.lit (.str "x")) false false false) key "y").attrs.lookup
          key = some "y") ∧
    (readMap (hostSetAttribute host s kr "y") = readMap s ∧
      countUpdates (hostSetAttribute host s kr "y").log = countUpdates s.log) := by
  -- the state after the outer assignment of `set(key, "x")`
  have hxs : toAttrString host (.str "x") = "x" := rfl
  have hw1 : readMap (writeMap s (aupd key (.str "x") (readMap s))) =
      aupd key (.str "x") (readMap s) := readMap_writeMap _ _
  -- the reflecting `set(key, "x")` in normal form
  have h1 : jsSet host s key (.lit (.str "x")) false false false =
      setTail host
        (setTail host
          (writeMap (attrLogged (writeMap s (aupd key (.str "x") (readMap s)))
              key "x")
            (aupd key wx (readMap (writeMap s (aupd key (.str "x") (readMap s))))))
          key d false)
        key d false := by
    rw [jsSet_known host s key (.lit (.str "x")) false false false prev d hp hd]
    simp only [applyArg, hprev, hrefl, ne_eq, not_false_eq_true, and_self,
      if_true, hxs, true_and, and_true, if_pos]
    rw [hostSetAttribute_known host _ key "x" d (.str "x") wx
      (by simpa using hd) (by simpa using hobs) hcx href
      (by rw [hw1]; exact lookup_aupd_self key _ _) (by simpa using hth)]
    simp [hth]
  -- facts about the state after `set(key, "x")`
  have h1read : readMap (jsSet host s key (.lit (.str "x")) false false false) =
      aupd key wx (aupd key (.str "x") (readMap s)) := by
    rw [h1]; simp [hw1]
  have h1attrs : (jsSet host s key (.lit (.str "x")) false false false).attrs =
      aupd key "x" s.attrs := by
    rw [h1]; simp
  have h1defs : (jsSet host s key (.lit (.str "x")) false false false).defs =
      s.defs := by
    rw [h1]; simp
  have h1obs : (jsSet host s key (.lit (.str "x")) false false false).observedAttrs =
      s.observedAttrs := by
    rw [h1]; simp
  have h1th : (jsSet host s key (.lit (.str "x")) false false false).thrown =
      false := by
    rw [h1]; simp [hth]
  have h1attrCount :
      countAttrWrites (jsSet host s key (.lit (.str "x")) false false false).log =
        countAttrWrites s.log + 1 := by
    rw [h1]; simp [countAttrWrites]
  refine ⟨⟨?_, h1attrCount⟩, ⟨?_, ?_, ?_⟩, ?_, ?_⟩
  · rw [h1attrs]; exact lookup_aupd_self key "x" s.attrs
  · -- out-of-band mutation to "y": the store takes the coerced value
    rw [hostSetAttribute_known host _ key "y" d wx wy
      (by rw [h1defs]; exact hd) (by rw [h1obs]; exact hobs) hcy href
      (by rw [h1read]; exact lookup_aupd_self key wx _) h1th]
    simp [jsGet, lookup_aupd_self]
  · -- exactly one further attribute write: the mutation itself
    rw [hostSetAttribute_known host _ key "y" d wx wy
      (by rw [h1defs]; exact hd) (by rw [h1obs]; exact hobs) hcy href
      (by rw [h1read]; exact lookup_aupd_self key wx _) h1th]
    simp [countAttrWrites]
  · -- the attribute holds "y"
    rw [hostSetAttribute_known host _ key "y" d wx wy
      (by rw [h1defs]; exact hd) (by rw [h1obs]; exact hobs) hcy href
      (by rw [h1read]; exact lookup_aupd_self key wx _) h1th]
    simp [h1attrs, lookup_aupd_self]
  · -- reference-bound property: the store is untouched
    by_cases hko : kr ∈ s.observedAttrs
    · rw [hostSetAttribute_ref_cases host s kr "y" dr hdr hko hrref]
    · rw [hostSetAttribute_not_observed host s kr "y" hko]
      simp
  · by_cases hko : kr ∈ s.observedAttrs
    · rw [hostSetAttribute_ref_cases_updates host s kr "y" dr hdr hko hrref]
    · rw [hostSetAttribute_not_observed host s kr "y" hko]
      simp [countUpdates]

/-- C5 witness: the reflected string property `title` (initially
`"t0"`) and the reference-bound `live` on `demoReflect`. -/
theorem reflection_round_trip_witness :
    ((jsSet demoHost demoReflect "title" (.lit (.str "x")) false false
        false).attrs.lookup "title" = some "x" ∧
      countAttrWrites (jsSet demoHost demoReflect "title"
        (.lit (.str "x")) false false false).log =
        countAttrWrites demoReflect.log + 1) ∧
    (jsGet (hostSetAttribute demoHost
        (jsSet demoHost demoReflect "title" (.lit (.str "x")) false false false)
        "title" "y") "title" = .str "y" ∧
      countAttrWrites (hostSetAttribute demoHost
        (jsSet demoHost demoReflect "title" (.lit (.str "x")) false false false)
        "title" "y").log =
        countAttrWrites (jsSet demoHost demoReflect "title"
          (.lit (.str "x")) false false false).log + 1 ∧
      (hostSetAttribute demoHost
        (jsSet demoHost demoReflect "title" (.lit (.str "x")) false false false)
        "title" "y").attrs.lookup "title" = some "y") ∧
    (readMap (hostSetAttribute demoHost demoReflect "live" "y") =
        readMap demoReflect ∧
      countUpdates (hostSetAttribute demoHost demoReflect "live" "y").log =
        countUpdates demoReflect.log) :=
  reflection_round_trip demoHost demoReflect "title" "live" (.str "t0")
    ⟨"string", .str "t0", true, false, false⟩
    ⟨"number", .num 7, false, false, true⟩ (.str "x") (.str "y")
    (by decide) (by decide) (by decide) (by decide) (by decide) (by decide)
    (by decide) (by rfl) (by rfl) (by decide) (by decide)

/-! ## C2 — a pending render is not cancelled by unmount -/

/-- Teardown only appends events: `disconnectedCallback` touches
nothing but the log — in particular `mounted`, `_renderScheduled` and
the pending microtask survive it. -/
theorem disconnectedCallback_eq (s : CompState) :
    disconnectedCallback s =
      { s with log := s.log ++ [.onUnmountE] ++
          (if s.hasStyles then [.removeStylesE] else []) ++
          unsubEvents s.defs ++ pluginUnmountEvents 0 s.plugins } := by
  unfold disconnectedCallback pushLog
  by_cases h : s.hasStyles <;> simp [h]

/-- C2 counterexample: with one batched render pending at detachment
(`demoPending`), running the pending microtask after
`disconnectedCallback` still invokes the render and rewrites the
detached subtree's content — the pending render neither is cancelled
nor becomes a no-op. -/
theorem pending_render_after_unmount_counterexample :
    (disconnectedCallback demoPending).pendingFlush = true ∧
      ¬ (countRenders (flushMicro demoHost (disconnectedCallback demoPending)).log =
          countRenders (disconnectedCallback demoPending).log) ∧
      ¬ ((flushMicro demoHost (disconnectedCallback demoPending)).templateHTML =
          (disconnectedCallback demoPending).templateHTML) := by
  decide

/-- C2 amended: unmount performs no cancellation at all — after
`disconnectedCallback` the pending flag, the scheduled flag and the
`mounted` flag are exactly as before, and a batched render pending at
detachment still executes (one render invocation) when its microtask
runs. -/
theorem disconnect_does_not_cancel (host : Host) (s : CompState)
    (hb : s.pendingFlush = true) :
    (disconnectedCallback s).pendingFlush = true ∧
      (disconnectedCallback s).renderScheduled = s.renderScheduled ∧
      (disconnectedCallback s).mounted = s.mounted ∧
      countRenders (flushMicro host (disconnectedCallback s)).log =
        countRenders (disconnectedCallback s).log + 1 := by
  rw [disconnectedCallback_eq]
  simp [flushMicro, hb, renderNow_eq, countRenders, readMap]
  omega

/-- C2 witness. -/
theorem disconnect_does_not_cancel_witness :
    (disconnectedCallback demoPending).pendingFlush = true ∧
      (disconnectedCallback demoPending).renderScheduled =
        demoPending.renderScheduled ∧
      (disconnectedCallback demoPending).mounted = demoPending.mounted ∧
      countRenders (flushMicro demoHost (disconnectedCallback demoPending)).log =
        countRenders (disconnectedCallback demoPending).log + 1 :=
  disconnect_does_not_cancel demoHost demoPending (by decide)

/-! ## C4 — functional updates and render batching -/

/-- One `set(key, prev => prev + 1)` on a mounted, batched component
whose property currently holds the number `a`: the store advances to
`a + 1`, a render becomes (or stays) scheduled without executing, and
no render output is produced synchronously. The coercion hypothesis
`hc` says the property's declared type round-trips its serialized
numeric value (as a numeric property does) — it is only exercised when
the definition reflects and the attribute is observed. -/
theorem set_incr_step (host : Host) (t : CompState) (key : String) (a : Int)
    (d : PropDef)
    (hp : (readMap t).lookup key = some (.num a))
    (hd : t.defs.lookup key = some d)
    (hnr : d.noRender = false)
    (hb : t.batchRender = true)
    (hm : t.mounted = true)
    (hth : t.thrown = false)
    (hc : castValue host (.str (toAttrString host (.num (a + 1)))) d.type =
      .ok (.num (a + 1))) :
    readMap (jsSet host t key incrArg false false false) =
        aupd key (.num (a + 1)) (readMap t) ∧
      (jsSet host t key incrArg false false false).defs = t.defs ∧
      (jsSet host t key incrArg false false false).observedAttrs =
        t.observedAttrs ∧
      (jsSet host t key incrArg false false false).thrown = false ∧
      (jsSet host t key incrArg false false false).batchRender = true ∧
      (jsSet host t key incrArg false false false).mounted = true ∧
      (jsSet host t key incrArg false false false).renderScheduled = true ∧
      (jsSet host t key incrArg false false false).pendingFlush =
        (t.pendingFlush || !t.renderScheduled) ∧
      countRenders (jsSet host t key incrArg false false false).log =
        countRenders t.log ∧
      renderObs (jsSet host t key incrArg false false false).log =
        renderObs t.log := by
  have hincr : applyArg incrArg (.num a) false = .num (a + 1) := by
    simp [incrArg, applyArg]
  rw [jsSet_known host t key incrArg false false false (.num a) d hp hd]
  simp only [hincr]
  by_cases hr : d.reflect = true
  · -- the write reflects to the attribute
    have hcond : (Value.num a ≠ Value.num (a + 1) ∧ d.reflect = true ∧ True) := by
      refine ⟨?_, hr, trivial⟩
      simp only [ne_eq, Value.num.injEq]
      omega
    rw [if_pos hcond]
    by_cases ho : key ∈ t.observedAttrs
    · by_cases hhr : d.hasRef = true
      · -- reference-bound: the attribute-changed path skips the set
        rw [hostSetAttribute_ref host _ key _ d (.num (a + 1))
          (by simpa using hd) (by simpa using ho) hhr hc]
        simp only [setTail_thrown, attrLogged_thrown, writeMap_thrown, hth, Bool.false_eq_true, if_false]
        have hsch := setTail_sched_batch host
          (attrLogged (writeMap t (aupd key (Value.num (a + 1)) (readMap t)))
            key (toAttrString host (Value.num (a + 1)))) key d false
          (by simp [hb]) hnr (by simp [hm])
        refine ⟨?_, ?_, ?_, ?_, ?_, ?_, ?_, ?_, ?_, ?_⟩ <;>
          simp_all [setTail_countRenders_batch, setTail_renderObs_batch,
            countRenders, renderObs]
      · -- plain reflected property: the callback re-sets the same value
        rw [hostSetAttribute_known host _ key _ d (.num (a + 1)) (.num (a + 1))
          (by simpa using hd) (by simpa using ho) hc
          (by simpa using hhr)
          (by rw [readMap_writeMap]; exact lookup_aupd_self key _ _)
          (by simp [hth])]
        have hb1 : (writeMap (attrLogged (writeMap t
            (aupd key (Value.num (a + 1)) (readMap t))) key
            (toAttrString host (Value.num (a + 1))))
            (aupd key (Value.num (a + 1))
              (readMap (writeMap t
                (aupd key (Value.num (a + 1)) (readMap t)))))).batchRender =
            true := by simp [hb]
        have hsch1 := setTail_sched_batch host
          (writeMap (attrLogged (writeMap t
            (aupd key (Value.num (a + 1)) (readMap t))) key
            (toAttrString host (Value.num (a + 1))))
            (aupd key (Value.num (a + 1))
              (readMap (writeMap t
                (aupd key (Value.num (a + 1)) (readMap t))))))
          key d false hb1 hnr (by simp [hm])
        have hsch2 := setTail_sched_already host
          (setTail host (writeMap (attrLogged (writeMap t
            (aupd key (Value.num (a + 1)) (readMap t))) key
            (toAttrString host (Value.num (a + 1))))
            (aupd key (Value.num (a + 1))
              (readMap (writeMap t
                (aupd key (Value.num (a + 1)) (readMap t))))))
            key d false)
          key d false (by simp [hb]) hsch1.1
        simp only [setTail_thrown, attrLogged_thrown, writeMap_thrown, hth, Bool.false_eq_true, if_false]
        refine ⟨?_, ?_, ?_, ?_, ?_, ?_, ?_, ?_, ?_, ?_⟩ <;>
          simp_all [setTail_countRenders_batch, setTail_renderObs_batch,
            aupd_aupd, countRenders, renderObs]
    · -- attribute not observed: only the attribute write happens
      rw [hostSetAttribute_not_observed host _ key _ (by simpa using ho)]
      simp only [setTail_thrown, attrLogged_thrown, writeMap_thrown, hth, Bool.false_eq_true, if_false]
      have hsch := setTail_sched_batch host
        (attrLogged (writeMap t (aupd key (Value.num (a + 1)) (readMap t)))
          key (toAttrString host (Value.num (a + 1)))) key d false
        (by simp [hb]) hnr (by simp [hm])
      refine ⟨?_, ?_, ?_, ?_, ?_, ?_, ?_, ?_, ?_, ?_⟩ <;>
        simp_all [setTail_countRenders_batch, setTail_renderObs_batch,
          countRenders, renderObs]
  · -- no reflection
    have hnc : ¬ (Value.num a ≠ Value.num (a + 1) ∧ d.reflect = true ∧ True) := by
      simp [hr]
    rw [if_neg hnc]
    simp only [setTail_thrown, attrLogged_thrown, writeMap_thrown, hth, Bool.false_eq_true, if_false]
    have hsch := setTail_sched_batch host
      (writeMap t (aupd key (Value.num (a + 1)) (readMap t))) key d false
      (by simp [hb]) hnr (by simp [hm])
    refine ⟨?_, ?_, ?_, ?_, ?_, ?_, ?_, ?_, ?_, ?_⟩ <;>
      simp_all [setTail_countRenders_batch, setTail_renderObs_batch]

/-- C4: on a mounted component in batched mode with no render pending,
two synchronous `set(key, prev => prev + 1)` calls on a property
currently holding the number `n` leave `get(key) = n + 2`, execute no
render synchronously, and the single coalesced render that then runs
observes the final property set, in which `key` holds `n + 2`. The two
coercion hypotheses say the declared type round-trips the serialized
numbers `n + 1` and `n + 2` (as a numeric property does). -/
theorem functional_update_batched_render (host : Host) (s : CompState)
    (key : String) (n : Int) (d : PropDef)
    (hp : (readMap s).lookup key = some (.num n))
    (hd : s.defs.lookup key = some d)
    (hnr : d.noRender = false)
    (hb : s.batchRender = true)
    (hm : s.mounted = true)
    (hrs : s.renderScheduled = false)
    (hpf : s.pendingFlush = false)
    (hth : s.thrown = false)
    (hc1 : castValue host (.str (toAttrString host (.num (n + 1)))) d.type =
      .ok (.num (n + 1)))
    (hc2 : castValue host (.str (toAttrString host (.num (n + 2)))) d.type =
      .ok (.num (n + 2))) :
    jsGet (jsSet host (jsSet host s key incrArg false false false) key
        incrArg false false false) key = .num (n + 2) ∧
      countRenders (jsSet host (jsSet host s key incrArg false false false) key
        incrArg false false false).log = countRenders s.log ∧
      renderObs (flushMicro host (jsSet host
        (jsSet host s key incrArg false false false) key
        incrArg false false false)).log =
        renderObs s.log ++
          [readMap (jsSet host (jsSet host s key incrArg false false false) key
            incrArg false false false)] ∧
      (readMap (jsSet host (jsSet host s key incrArg false false false) key
        incrArg false false false)).lookup key = some (.num (n + 2)) := by
  obtain ⟨m1, d1, o1, t1, b1, mo1, rs1, pf1, cr1, ro1⟩ :=
    set_incr_step host s key n d hp hd hnr hb hm hth hc1
  have e : n + 1 + 1 = n + 2 := by ring
  have hp1 : (readMap (jsSet host s key incrArg false false false)).lookup key =
      some (.num (n + 1)) := by
    rw [m1]; exact lookup_aupd_self _ _ _
  have hd1 : (jsSet host s key incrArg false false false).defs.lookup key =
      some d := by
    rw [d1]; exact hd
  obtain ⟨m2, d2, o2, t2, b2, mo2, rs2, pf2, cr2, ro2⟩ :=
    set_incr_step host (jsSet host s key incrArg false false false) key (n + 1) d
      hp1 hd1 hnr b1 mo1 t1 (by rw [e]; exact hc2)
  have hget : (readMap (jsSet host (jsSet host s key incrArg false false false)
      key incrArg false false false)).lookup key = some (.num (n + 2)) := by
    rw [m2, e]
    exact lookup_aupd_self _ _ _
  have hpf2 : (jsSet host (jsSet host s key incrArg false false false) key
      incrArg false false false).pendingFlush = true := by
    rw [pf2, pf1, hpf, hrs]
    simp
  refine ⟨?_, ?_, ?_, hget⟩
  · simp [jsGet, hget]
  · rw [cr2, cr1]
  · unfold flushMicro
    rw [if_pos (by rw [hpf2])]
    rw [renderNow_eq]
    simp [ro1, ro2, readMap]

/-- C4 witness: `count` starts at 0 on a mounted batched component;
two functional updates yield 2 and the flushed render observes it. -/
theorem functional_update_batched_render_witness :
    jsGet (jsSet demoHost (jsSet demoHost demoMounted "count"
        incrArg false false false) "count" incrArg false false false) "count" =
        .num 2 ∧
      countRenders (jsSet demoHost (jsSet demoHost demoMounted "count"
        incrArg false false false) "count" incrArg false false false).log =
        countRenders demoMounted.log ∧
      renderObs (flushMicro demoHost (jsSet demoHost
        (jsSet demoHost demoMounted "count" incrArg false false false) "count"
        incrArg false false false)).log =
        renderObs demoMounted.log ++
          [readMap (jsSet demoHost (jsSet demoHost demoMounted "count"
            incrArg false false false) "count" incrArg false false false)] ∧
      (readMap (jsSet demoHost (jsSet demoHost demoMounted "count"
        incrArg false false false) "count" incrArg false false false)).lookup
        "count" = some (.num 2) :=
  functional_update_batched_render demoHost demoMounted "count" 0
    ⟨"number", .num 0, true, false, false⟩
    (by decide) (by decide) (by decide) (by decide) (by decide) (by decide)
    (by decide) (by decide) (by rfl) (by rfl)

/-! ## C10 — `props` and the internal store are one object -/

@[simp] theorem writeMap_privId (s : CompState) (m : List (String × Value)) :
    (writeMap s m).privId = s.privId := rfl

@[simp] theorem writeMap_pubId (s : CompState) (m : List (String × Value)) :
    (writeMap s m).pubId = s.pubId := rfl

@[simp] theorem attrLogged_privId (s : CompState) (k va : String) :
    (attrLogged s k va).privId = s.privId := rfl

@[simp] theorem attrLogged_pubId (s : CompState) (k va : String) :
    (attrLogged s k va).pubId = s.pubId := rfl

@[simp] theorem setTail_privId (host : Host) (t : CompState) (key : String)
    (d : PropDef) (fr : Bool) : (setTail host t key d fr).privId = t.privId := by
  simp only [setTail, setSchedule, setRefPush_eq, setNotify_eq, scheduleRender_eq]
  split_ifs <;> rfl

@[simp] theorem setTail_pubId (host : Host) (t : CompState) (key : String)
    (d : PropDef) (fr : Bool) : (setTail host t key d fr).pubId = t.pubId := by
  simp only [setTail, setSchedule, setRefPush_eq, setNotify_eq, scheduleRender_eq]
  split_ifs <;> rfl

theorem jsSetCore_ids (host : Host) (s : CompState) (key : String) (arg : SetArg)
    (noReflect fromRef noExecution : Bool)
    (reflectTo : CompState → String → String → CompState)
    (hrt : ∀ st k va, (reflectTo st k va).privId = st.privId ∧
      (reflectTo st k va).pubId = st.pubId) :
    (jsSetCore host s key arg noReflect fromRef noExecution reflectTo).privId =
        s.privId ∧
      (jsSetCore host s key arg noReflect fromRef noExecution reflectTo).pubId =
        s.pubId := by
  have hrt1 : ∀ st k va, (reflectTo st k va).privId = st.privId :=
    fun st k va => (hrt st k va).1
  have hrt2 : ∀ st k va, (reflectTo st k va).pubId = st.pubId :=
    fun st k va => (hrt st k va).2
  unfold jsSetCore
  cases hpk : (readMap s).lookup key with
  | none => simp only [hpk]; exact ⟨rfl, rfl⟩
  | some prev =>
    simp only [hpk]
    cases hdk : s.defs.lookup key with
    | none => simp only [hdk]; exact ⟨rfl, rfl⟩
    | some d =>
      simp only [hdk]
      split_ifs <;> simp [hrt1, hrt2]

theorem jsSetNR_ids (host : Host) (s : CompState) (key : String) (arg : SetArg)
    (fromRef noExecution : Bool) :
    (jsSetNR host s key arg fromRef noExecution).privId = s.privId ∧
      (jsSetNR host s key arg fromRef noExecution).pubId = s.pubId :=
  jsSetCore_ids host s key arg true fromRef noExecution _
    (fun _ _ _ => ⟨rfl, rfl⟩)

theorem attributeChangedCallback_ids (host : Host) (s : CompState)
    (name newValue : String) :
    (attributeChangedCallback host s name newValue).privId = s.privId ∧
      (attributeChangedCallback host s name newValue).pubId = s.pubId := by
  unfold attributeChangedCallback
  cases hdk : s.defs.lookup name with
  | none => simp [hdk]
  | some d =>
    simp only [hdk]
    cases hc : castValue host (.str newValue) d.type with
    | error e => simp [hc]
    | ok w =>
      simp only [hc]
      split_ifs
      · exact ⟨rfl, rfl⟩
      · exact jsSetNR_ids host s name (.lit w) false false

theorem hostSetAttribute_ids (host : Host) (s : CompState) (key va : String) :
    (hostSetAttribute host s key va).privId = s.privId ∧
      (hostSetAttribute host s key va).pubId = s.pubId := by
  unfold hostSetAttribute
  dsimp only
  split_ifs
  · exact attributeChangedCallback_ids host (attrLogged s key va) key va
  · exact ⟨rfl, rfl⟩

theorem jsSet_ids (host : Host) (s : CompState) (key : String) (arg : SetArg)
    (noReflect fromRef noExecution : Bool) :
    (jsSet host s key arg noReflect fromRef noExecution).privId = s.privId ∧
      (jsSet host s key arg noReflect fromRef noExecution).pubId = s.pubId :=
  jsSetCore_ids host s key arg noReflect fromRef noExecution _
    (fun st k va => hostSetAttribute_ids host st k va)

theorem setMultiple_ids (host : Host) (updates : List (String × SetArg))
    (noReflect : Bool) (s : CompState) :
    (setMultiple host s updates noReflect).privId = s.privId ∧
      (setMultiple host s updates noReflect).pubId = s.pubId := by
  unfold setMultiple
  induction updates generalizing s with
  | nil => exact ⟨rfl, rfl⟩
  | cons kv rest ih =>
    simp only [List.foldl_cons]
    by_cases hth : s.thrown = true
    · rw [if_pos hth]
      exact ih s
    · rw [if_neg hth]
      have h1 := jsSet_ids host s kv.1 kv.2 noReflect false false
      have h2 := ih (jsSet host s kv.1 kv.2 noReflect false false)
      exact ⟨h2.1.trans h1.1, h2.2.trans h1.2⟩

theorem connectedCallback_ids (host : Host) (s : CompState) :
    (connectedCallback host s).privId = s.privId ∧
      (connectedCallback host s).pubId = s.pubId := by
  unfold connectedCallback
  simp [renderNow_eq, pushLog]

theorem disconnectedCallback_ids (s : CompState) :
    (disconnectedCallback s).privId = s.privId ∧
      (disconnectedCallback s).pubId = s.pubId := by
  rw [disconnectedCallback_eq]
  exact ⟨rfl, rfl⟩

theorem flushMicro_ids (host : Host) (s : CompState) :
    (flushMicro host s).privId = s.privId ∧
      (flushMicro host s).pubId = s.pubId := by
  unfold flushMicro
  split_ifs
  · simp [renderNow_eq]
  · exact ⟨rfl, rfl⟩

theorem forceUpdate_ids (host : Host) (s : CompState) :
    (forceUpdate host s).privId = s.privId ∧
      (forceUpdate host s).pubId = s.pubId := by
  unfold forceUpdate
  split_ifs
  · rw [scheduleRender_eq]
    split_ifs <;> exact ⟨rfl, rfl⟩
  · exact ⟨rfl, rfl⟩

theorem step_ids (host : Host) (s : CompState) (op : Op) :
    (step host s op).privId = s.privId ∧ (step host s op).pubId = s.pubId := by
  cases op with
  | setOp k a nr fr ne => exact jsSet_ids host _ k a nr fr ne
  | setMultipleOp us nr => exact setMultiple_ids host us nr _
  | getOp k => exact ⟨rfl, rfl⟩
  | attrWrite k va => exact hostSetAttribute_ids host _ k va
  | flushOp => exact flushMicro_ids host _
  | connectOp => exact connectedCallback_ids host _
  | disconnectOp => exact disconnectedCallback_ids _
  | updateOp => exact forceUpdate_ids host _
  | refPushOp k v => exact jsSet_ids host _ k (.lit v) false true false
  | directAssignOp k v => exact ⟨rfl, rfl⟩

theorem runOps_ids (host : Host) (ops : List Op) (s : CompState) :
    (ops.foldl (step host) s).privId = s.privId ∧
      (ops.foldl (step host) s).pubId = s.pubId := by
  induction ops generalizing s with
  | nil => exact ⟨rfl, rfl⟩
  | cons op rest ih =>
    simp only [List.foldl_cons]
    have h1 := step_ids host s op
    have h2 := ih (step host s op)
    exact ⟨h2.1.trans h1.1, h2.2.trans h1.2⟩

/-- C10: along any sequence of operations from construction, the
public `props` field and the internal store are the same object — so
`get` agrees with `props` on every key — and a direct assignment
`props[key] = v` changes the value `get` returns while producing no
reflection, no update notification, no external-reference push and no
render (log, attributes, scheduler flags and rendered content are
untouched). -/
theorem props_field_is_store (host : Host) (raws : List (String × RawProp))
    (attrs : List (String × String)) (observed : List String) (styles : String)
    (plugins : List PluginSpec) (batch : Bool) (ops : List Op) (k : String)
    (v : Value) :
    (∀ k', jsGet (ops.foldl (step host)
        (construct host raws attrs observed styles plugins batch)) k' =
      ((publicProps (ops.foldl (step host)
        (construct host raws attrs observed styles plugins batch))).lookup
          k').getD .undefined) ∧
    jsGet (directAssign (ops.foldl (step host)
        (construct host raws attrs observed styles plugins batch)) k v) k = v ∧
    (directAssign (ops.foldl (step host)
        (construct host raws attrs observed styles plugins batch)) k v).log =
      (ops.foldl (step host)
        (construct host raws attrs observed styles plugins batch)).log ∧
    (directAssign (ops.foldl (step host)
        (construct host raws attrs observed styles plugins batch)) k v).attrs =
      (ops.foldl (step host)
        (construct host raws attrs observed styles plugins batch)).attrs ∧
    (directAssign (ops.foldl (step host)
        (construct host raws attrs observed styles plugins batch)) k
          v).pendingFlush =
      (ops.foldl (step host)
        (construct host raws attrs observed styles plugins batch)).pendingFlush ∧
    (directAssign (ops.foldl (step host)
        (construct host raws attrs observed styles plugins batch)) k
          v).renderScheduled =
      (ops.foldl (step host)
        (construct host raws attrs observed styles plugins batch)).renderScheduled ∧
    (directAssign (ops.foldl (step host)
        (construct host raws attrs observed styles plugins batch)) k
          v).templateHTML =
      (ops.foldl (step host)
        (construct host raws attrs observed styles plugins batch)).templateHTML := by
  have hids := runOps_ids host ops
    (construct host raws attrs observed styles plugins batch)
  have hpriv : (ops.foldl (step host)
      (construct host raws attrs observed styles plugins batch)).privId = 0 :=
    hids.1
  have hpub : (ops.foldl (step host)
      (construct host raws attrs observed styles plugins batch)).pubId = 0 :=
    hids.2
  refine ⟨?_, ?_, rfl, rfl, rfl, rfl, rfl⟩
  · intro k'
    simp [jsGet, readMap, publicProps, hpriv, hpub]
  · simp [jsGet, readMap, directAssign, publicProps, hpriv, hpub,
      lookup_aupd_self]

end Scope
